import Mathlib

/-
Shallow embedding of src/app.py (ANCA Coordinator dashboard).

The script is a Streamlit app executed top to bottom once per render pass.
Per-process session state: `simulation_running` (lines 18-19, init False)
and `atkinson_score` (lines 21-22, init 0.45).  Randomness drawn by numpy
inside a pass is modelled as explicit inputs to the pass.
-/

/-- Status values drawn by `np.random.choice` at src/app.py line 42. -/
inductive AgentStatus where
  | Active
  | Idle
  | Planning
  | Moving
deriving DecidableEq

/-- One row of the DataFrame built at src/app.py lines 45-50. -/
structure AgentRow where
  agentIm : String
  status : AgentStatus
  battery : ℤ
  tasks : ℤ
deriving DecidableEq

/-- The fixed agent-name list, src/app.py line 41. -/
def agents : List String :=
  ["LeadDeveloper", "LogisticsAnalyst", "EthicsAuditor", "CoordinatorAgent"]

/-- `generate_mock_agent_data`, src/app.py lines 40-50.  The three numpy
draws (`status`, `battery`, `tasks`, each of size `len(agents)`) are passed
in as indexed draws; the name column is the fixed `agents` list. -/
def generate_mock_agent_data (rStatus : ℕ → AgentStatus) (rBattery : ℕ → ℤ)
    (rTasks : ℕ → ℤ) : List AgentRow :=
  (List.range agents.length).map fun i =>
    { agentIm := agents.getD i "", status := rStatus i,
      battery := rBattery i, tasks := rTasks i }

/-- `calculate_atkinson_index`, src/app.py lines 52-54:
`return 0.4 + (np.random.random() * 0.1)`.  The `np.random.random()` draw
(a value in [0,1)) is the explicit argument `r`; the body ignores both
`distribution` and `epsilon`. -/
def calculate_atkinson_index (distribution : List ℚ) (epsilon : ℚ) (r : ℚ) : ℚ :=
  2/5 + r * (1/10)

/-- The two persistent values in `st.session_state`. -/
structure SessionState where
  simulation_running : Bool
  atkinson_score : ℚ
deriving DecidableEq

/-- Session-state initialisation, src/app.py lines 18-22: `simulation_running`
starts False (PAUSED) and `atkinson_score` starts 0.45. -/
def initState : SessionState :=
  { simulation_running := false, atkinson_score := 45/100 }

/-- Inputs consumed by one render pass: the two buttons (lines 70, 72), the
agent-count slider (line 63), and the numpy draws made during the pass. -/
structure RenderInput where
  start_btn : Bool
  stop_btn : Bool
  num_agents : ℕ
  rAtkinson : ℚ
  rStatus : ℕ → AgentStatus
  rBattery : ℕ → ℤ
  rTasks : ℕ → ℤ

/-- Button handling in the sidebar, src/app.py lines 74-77:
`if start_btn: running = True` then `if stop_btn: running = False`. -/
def sidebar (start_btn : Bool) (stop_btn : Bool) (s : SessionState) : SessionState :=
  let s1 := if start_btn then { s with simulation_running := true } else s
  if stop_btn then { s1 with simulation_running := false } else s1

/-- The pair of values the pass publishes to the display surfaces:
`latest_atkinson` (metric at line 100) and `agent_df` (table at line 106). -/
structure DisplaySnapshot where
  latest_atkinson : ℚ
  agent_df : List AgentRow
deriving DecidableEq

/-- One full render pass of the script: sidebar button handling (lines 74-77),
then the metric refresh (lines 94-97: keep the stored score, and only while
running recompute it via `calculate_atkinson_index([])` and store it back),
then the unconditional fleet regeneration (line 105). -/
def renderPass (inp : RenderInput) (s : SessionState) : SessionState × DisplaySnapshot :=
  let s1 := sidebar inp.start_btn inp.stop_btn s
  let latest :=
    if s1.simulation_running then calculate_atkinson_index [] (1/2) inp.rAtkinson
    else s1.atkinson_score
  let s2 :=
    if s1.simulation_running then { s1 with atkinson_score := latest } else s1
  let df := generate_mock_agent_data inp.rStatus inp.rBattery inp.rTasks
  (s2, { latest_atkinson := latest, agent_df := df })

/-- A status draw that returns `Active` for every agent index. -/
def allActive : ℕ → AgentStatus := fun _ => AgentStatus.Active

/-- A status draw that returns `Idle` for every agent index. -/
def allIdle : ℕ → AgentStatus := fun _ => AgentStatus.Idle

/-- A quiet pass: no button pressed, slider at its default 4, all draws fixed. -/
def inpQuiet : RenderInput :=
  { start_btn := false, stop_btn := false, num_agents := 4,
    rAtkinson := 0, rStatus := allActive, rBattery := fun _ => 50,
    rTasks := fun _ => 1 }

/-- A quiet pass whose status draw differs from `inpQuiet`. -/
def inpQuietIdle : RenderInput :=
  { inpQuiet with rStatus := allIdle }

/-- A pass with the Start button pressed. -/
def inpStart : RenderInput :=
  { inpQuiet with start_btn := true }

/-- A pass with the Stop button pressed and a different status draw. -/
def inpStopIdle : RenderInput :=
  { inpQuietIdle with stop_btn := true }

/-- A pass with Start pressed and the agent-count slider set to 5. -/
def inpStartFive : RenderInput :=
  { inpStart with num_agents := 5 }

/-- The sidebar never touches the stored fairness score. -/
lemma sidebar_atkinson_score (a b : Bool) (s : SessionState) :
    (sidebar a b s).atkinson_score = s.atkinson_score := by
  cases a <;> cases b <;> rfl

/-- Claim C7: the run-control state machine starts PAUSED; Start moves any
state to RUNNING and Stop moves any state to PAUSED; both are idempotent,
Start while RUNNING and Stop while PAUSED leave the state unchanged, and two
consecutive Starts yield the same RunState as one. -/
theorem C7_run_control_state_machine :
    initState.simulation_running = false ∧
    (∀ s : SessionState, (sidebar true false s).simulation_running = true) ∧
    (∀ s : SessionState, (sidebar false true s).simulation_running = false) ∧
    (∀ s : SessionState, s.simulation_running = true → sidebar true false s = s) ∧
    (∀ s : SessionState, s.simulation_running = false → sidebar false true s = s) ∧
    (∀ s : SessionState, sidebar true false (sidebar true false s) = sidebar true false s) := by
  refine ⟨rfl, fun s => rfl, fun s => rfl, ?_, ?_, fun s => rfl⟩ <;>
    · intro s h
      cases s
      simp_all [sidebar]

/-- Witness for C7: Start while already RUNNING leaves the state unchanged at
a concrete state. -/
theorem C7_run_control_state_machine_witness :
    sidebar true false { simulation_running := true, atkinson_score := 45/100 } =
      { simulation_running := true, atkinson_score := 45/100 } :=
  C7_run_control_state_machine.2.2.2.1 _ rfl

/-- Claim C10: when Start and Stop are both triggered in the same render
pass, the Stop assignment runs after the Start assignment, so the resulting
RunState is PAUSED. -/
theorem C10_stop_wins_over_simultaneous_start :
    ∀ s : SessionState, (sidebar true true s).simulation_running = false :=
  fun _ => rfl

/-- Claim C8: the fairness score is initialised to the seed 0.45, and every
pass whose RunState (as observed after button handling) is PAUSED leaves the
stored score unchanged: it is mutated only during RUNNING passes. -/
theorem C8_score_seeded_and_constant_while_paused :
    initState.atkinson_score = 45/100 ∧
    ∀ (inp : RenderInput) (s : SessionState),
      (sidebar inp.start_btn inp.stop_btn s).simulation_running = false →
      (renderPass inp s).1.atkinson_score = s.atkinson_score := by
  refine ⟨rfl, ?_⟩
  intro inp s h
  simp [renderPass, h, sidebar_atkinson_score]

/-- Witness for C8: a quiet pass from the initial state leaves the stored
score unchanged. -/
theorem C8_score_seeded_and_constant_while_paused_witness :
    (renderPass inpQuiet initState).1.atkinson_score = initState.atkinson_score :=
  C8_score_seeded_and_constant_while_paused.2 inpQuiet initState (by decide)

/-- Claim C3 (code evaluated at the failing inputs): for every possible draw
of `np.random.random()` (a value with 0 ≤ r), `calculate_atkinson_index` on
the all-equal distribution [10,10,10,10] and on the empty distribution
returns 2/5 + r/10, which is never 0 — the code does not return 0 on
perfectly equal or empty input as the claim requires. -/
theorem C3_equal_and_empty_input_nonzero (r : ℚ) (hr : 0 ≤ r) :
    calculate_atkinson_index (List.replicate 4 10) (1/2) r ≠ 0 ∧
    calculate_atkinson_index [] (1/2) r ≠ 0 := by
  unfold calculate_atkinson_index
  constructor <;> · intro h; nlinarith

/-- Witness for C3 at the concrete draw r = 0. -/
theorem C3_equal_and_empty_input_nonzero_witness :
    calculate_atkinson_index (List.replicate 4 10) (1/2) 0 ≠ 0 ∧
    calculate_atkinson_index [] (1/2) 0 ≠ 0 :=
  C3_equal_and_empty_input_nonzero 0 (by norm_num)

/-- Claim C4 (code evaluated at a failing input): with the distribution and
epsilon held fixed, two invocations whose `np.random.random()` draws differ
(r = 0 and r = 1/2, both legal draws in [0,1)) return different values —
the engine in the code is not deterministic for a fixed input. -/
theorem C4_same_input_different_outputs :
    calculate_atkinson_index [] (1/2) 0 ≠ calculate_atkinson_index [] (1/2) (1/2) := by
  unfold calculate_atkinson_index
  norm_num

/-- Claim C5 (code evaluated at the failing input): a distribution containing
the negative value -1 is not rejected; `calculate_atkinson_index` returns the
same numeric result (17/40 at draw r = 1/4) as for the valid distribution
[5,5] — no `InvalidDistribution` failure exists in the code. -/
theorem C5_negative_input_not_rejected :
    calculate_atkinson_index [-1, 5] (1/2) (1/4) =
      calculate_atkinson_index [5, 5] (1/2) (1/4) ∧
    calculate_atkinson_index [-1, 5] (1/2) (1/4) = 17/40 := by
  unfold calculate_atkinson_index
  norm_num

/-- Counterexample to claim C9: there is no pair of calls to
`generate_mock_agent_data` — whatever each call's random status, battery and
task draws are — whose agent-name sequences differ; the name column is the
fixed constant list, so names are never "drawn afresh at random". -/
theorem C9_counterexample_names_never_differ :
    ¬ ∃ (r1s r2s : ℕ → AgentStatus) (r1b r1t r2b r2t : ℕ → ℤ),
        (generate_mock_agent_data r1s r1b r1t).map AgentRow.agentIm ≠
        (generate_mock_agent_data r2s r2b r2t).map AgentRow.agentIm := by
  rintro ⟨r1s, r2s, r1b, r1t, r2b, r2t, hne⟩
  exact hne rfl

/-- Claim C9 (amended): every call to the fleet generator regenerates the
per-agent status (and battery/task) fields from that call's fresh random
draws, but the agent-name sequence is the fixed constant list `agents`,
identical across all calls. -/
theorem C9_names_fixed_other_fields_from_draws
    (rs : ℕ → AgentStatus) (rb rt : ℕ → ℤ) :
    (generate_mock_agent_data rs rb rt).map AgentRow.agentIm = agents ∧
    (generate_mock_agent_data rs rb rt).map AgentRow.status =
      (List.range agents.length).map rs ∧
    (generate_mock_agent_data rs rb rt).map AgentRow.battery =
      (List.range agents.length).map rb := by
  refine ⟨rfl, rfl, rfl⟩

/-- Counterexample to claim C1: starting from the initial (PAUSED) state, two
successive passes with no button pressed both observe PAUSED, yet their
published snapshots differ, because line 105 regenerates the fleet table from
fresh random draws on every pass (here `Active` rows then `Idle` rows). -/
theorem C1_counterexample_paused_snapshots_differ :
    (renderPass inpQuiet initState).1.simulation_running = false ∧
    (renderPass inpQuiet initState).2.agent_df ≠
      (renderPass inpQuietIdle (renderPass inpQuiet initState).1).2.agent_df := by
  refine ⟨rfl, ?_⟩
  decide

/-- Claim C1 (amended): during a pass with no button pressed whose RunState
is PAUSED, the session state — in particular the fairness score — is returned
unchanged with no recomputation, but the fleet snapshot is regenerated from
the current pass's random draws, so snapshots are not bit-identical across
passes. -/
theorem C1_paused_holds_fairness_but_regenerates_fleet
    (inp : RenderInput) (s : SessionState)
    (hstart : inp.start_btn = false) (hstop : inp.stop_btn = false)
    (hp : s.simulation_running = false) :
    (renderPass inp s).1 = s ∧
    (renderPass inp s).2.latest_atkinson = s.atkinson_score ∧
    (renderPass inp s).2.agent_df =
      generate_mock_agent_data inp.rStatus inp.rBattery inp.rTasks := by
  simp [renderPass, sidebar, hstart, hstop, hp]

/-- Witness for the amended C1 at a concrete quiet pass. -/
theorem C1_paused_holds_fairness_but_regenerates_fleet_witness :
    (renderPass inpQuiet initState).1 = initState ∧
    (renderPass inpQuiet initState).2.latest_atkinson = initState.atkinson_score ∧
    (renderPass inpQuiet initState).2.agent_df =
      generate_mock_agent_data inpQuiet.rStatus inpQuiet.rBattery inpQuiet.rTasks :=
  C1_paused_holds_fairness_but_regenerates_fleet inpQuiet initState rfl rfl rfl

/-- Counterexample to claim C2: press Start (pass 1, RUNNING, fairness 2/5
computed and stored), then press Stop (pass 2, PAUSED).  Pass 2 publishes the
fairness value computed in pass 1 next to a fleet snapshot generated from
pass 2's own draws, which differs from pass 1's fleet — a fairness value from
one pass paired with a fleet snapshot from a different pass. -/
theorem C2_counterexample_cross_pass_pairing :
    (renderPass inpStopIdle (renderPass inpStart initState).1).1.simulation_running
        = false ∧
    (renderPass inpStopIdle (renderPass inpStart initState).1).2.latest_atkinson =
      (renderPass inpStart initState).2.latest_atkinson ∧
    (renderPass inpStopIdle (renderPass inpStart initState).1).2.agent_df =
      generate_mock_agent_data inpStopIdle.rStatus inpStopIdle.rBattery
        inpStopIdle.rTasks ∧
    (renderPass inpStopIdle (renderPass inpStart initState).1).2.agent_df ≠
      (renderPass inpStart initState).2.agent_df := by
  refine ⟨rfl, rfl, rfl, ?_⟩
  decide

/-- Claim C2 (amended): the published fleet snapshot always comes from the
current pass's draws; the published fairness value comes from the current
pass when the pass runs RUNNING, but from the previously stored score when it
runs PAUSED — so the two fields of a published snapshot can originate in
different passes. -/
theorem C2_fleet_current_fairness_possibly_stale
    (inp : RenderInput) (s : SessionState) :
    (renderPass inp s).2.agent_df =
      generate_mock_agent_data inp.rStatus inp.rBattery inp.rTasks ∧
    ((sidebar inp.start_btn inp.stop_btn s).simulation_running = true →
      (renderPass inp s).2.latest_atkinson =
        calculate_atkinson_index [] (1/2) inp.rAtkinson) ∧
    ((sidebar inp.start_btn inp.stop_btn s).simulation_running = false →
      (renderPass inp s).2.latest_atkinson = s.atkinson_score) := by
  refine ⟨rfl, ?_, ?_⟩ <;> · intro h; simp [renderPass, h, sidebar_atkinson_score]

/-- Witness for the amended C2: a concrete RUNNING pass publishes the
fairness value computed in that pass. -/
theorem C2_fleet_current_fairness_possibly_stale_witness :
    (renderPass inpStart initState).2.latest_atkinson =
      calculate_atkinson_index [] (1/2) inpStart.rAtkinson :=
  (C2_fleet_current_fairness_possibly_stale inpStart initState).2.1 (by decide)

/-- Counterexample to claim C6: a pass that presses Start with the
agent-count slider at 5 runs RUNNING, yet the published fleet snapshot has
length 4, not 5 — `generate_mock_agent_data` (line 105) takes no argument
and always produces one row per name in its fixed four-name list. -/
theorem C6_counterexample_length_ignores_agent_count :
    (renderPass inpStartFive initState).1.simulation_running = true ∧
    inpStartFive.num_agents = 5 ∧
    (renderPass inpStartFive initState).2.agent_df.length = 4 ∧
    (renderPass inpStartFive initState).2.agent_df.length ≠
      inpStartFive.num_agents := by
  decide

/-- Claim C6 (amended): for every pass running RUNNING with any configured
agent count in [1,20], the published fleet snapshot has length exactly 4 —
the fixed size of the mock roster — independent of the configured count. -/
theorem C6_fleet_length_always_four
    (inp : RenderInput) (s : SessionState)
    (hrun : (sidebar inp.start_btn inp.stop_btn s).simulation_running = true)
    (h1 : 1 ≤ inp.num_agents) (h2 : inp.num_agents ≤ 20) :
    (renderPass inp s).2.agent_df.length = 4 := rfl

/-- Witness for the amended C6 at agent count 5. -/
theorem C6_fleet_length_always_four_witness :
    (renderPass inpStartFive initState).2.agent_df.length = 4 :=
  C6_fleet_length_always_four inpStartFive initState (by decide) (by decide) (by decide)
